import Mathlib

/-!
Shallow embedding of the build-cache resolution code of this repository:
the image data model, makeHistoryWithSource (the history deriver),
cacheSearchCoroutine (the per-cache-from-image tracker),
GetCachedImage (the direct parent/config matcher), MakeImageCacheForBuild,
GetCachedImageOnBuild, and a spec-modelled plugin fallback (the plugin
invocation itself is absent from the source; only the ImageCachePlugin
interface is declared there).

Modelling conventions:
- Go runtime faults (index out of range, assignment to a nil map) are
  modelled by Option, with none standing for the fault.
- time.Time is modelled as Nat; t1.Before(t2) is t1 < t2.
- The build configuration is opaque here (its comparison is delegated to
  the external collaborator runconfig.Compare), so Config is a plain
  string and every function that compares configurations receives the
  comparator as an explicit argument.
- Go map iteration (used by the scratch branch of GetCachedImage over
  imageStore.Map()) has unspecified order; the model keeps the snapshot
  as a list and treats its order as one admissible iteration order, so
  two stores holding the same images in different list orders represent
  two runs over one and the same map.
-/

namespace DockerBuildCache

/-- layer.DiffID, the content digest naming one layer, modelled as a string. -/
abbrev DiffID := String

/-- The build configuration. Its structure is external to this code
(equality is delegated to the collaborator runconfig.Compare), so it is
kept opaque as a plain string. -/
abbrev Config := String

/-- digest.DigestSha256EmptyTar, the well-known empty-layer digest constant. -/
def DigestSha256EmptyTar : DiffID :=
  "sha256:a3ed95caeb02ffe68cdd9fd84406680ae93d633cb16422d00e8a7c22955b46d4"

/-- One entry of image.History: CreatedBy is the command text, Created the
creation time, EmptyLayer says the instruction produced no layer. -/
structure HistoryEntry where
  CreatedBy : String
  Created : Nat
  EmptyLayer : Bool
deriving Repr, DecidableEq

/-- image.Image with the fields this code reads: ID, Parent, ContainerConfig,
Created, History, and RootFS.DiffIDs (flattened to the field DiffIDs). -/
structure Image where
  ID : String
  Parent : String
  ContainerConfig : Config
  Created : Nat
  History : List HistoryEntry
  DiffIDs : List DiffID
deriving Repr, DecidableEq

/-- The struct historyWithSourceT of the source: per history entry, the layer
the command ran on, the command, the resulting layer, and the creation time. -/
structure historyWithSourceT where
  sourceLayerID : DiffID
  cmd : String
  resultingLayerID : DiffID
  createdAt : Nat
deriving Repr, DecidableEq

/-- The expression pattern used twice inside makeHistoryWithSource:
if layerIndex == -1 the empty-tar digest, else image.RootFS.DiffIDs[layerIndex].
The Go indexing panics when layerIndex is past the end; none models that panic. -/
def layerAt (ds : List DiffID) (layerIndex : Int) : Option DiffID :=
  if layerIndex == -1 then some DigestSha256EmptyTar
  else ds.get? layerIndex.toNat

/-- The loop body of makeHistoryWithSource: walks image.History carrying the
mutable layerIndex (initially -1); for each entry the source layer is read at
the current index, the index advances when the entry produced a layer, and the
resulting layer is read at the advanced index. none models the Go index-out-of-
range panic that occurs when the count invariant between History and DiffIDs is
violated (the source has no error return here). -/
def makeHistoryWithSourceGo (ds : List DiffID) :
    List HistoryEntry → Int → Option (List historyWithSourceT)
  | [], _ => some []
  | h :: rest, layerIndex =>
    match layerAt ds layerIndex with
    | none => none
    | some src =>
      let layerIndex2 := if !h.EmptyLayer then layerIndex + 1 else layerIndex
      match layerAt ds layerIndex2 with
      | none => none
      | some res =>
        match makeHistoryWithSourceGo ds rest layerIndex2 with
        | none => none
        | some tail => some (⟨src, h.CreatedBy, res, h.Created⟩ :: tail)

/-- makeHistoryWithSource of the source: derive the per-step layer facts of an
image from its History and RootFS.DiffIDs, starting at layerIndex -1. -/
def makeHistoryWithSource (image : Image) : Option (List historyWithSourceT) :=
  makeHistoryWithSourceGo image.DiffIDs image.History (-1)

/-- The request struct read by cacheSearchCoroutine from its request channel:
the next command of the build and the layer chain built so far. -/
structure nextCachedLayerRequest where
  nextCmd : String
  prevLayerIDs : List DiffID
deriving Repr, DecidableEq

/-- The response struct cacheSearchCoroutine writes to its response channel.
A miss sets only nextLayerID to the empty string (the other fields keep their
Go zero values). -/
structure nextCachedLayerResponse where
  nextLayerID : DiffID
  createdAt : Nat
  cachedFrom : String
deriving Repr, DecidableEq

/-- The inner comparison loop of cacheSearchCoroutine, as written in the
source: for i := 0; i <= len(prevStepCachedLayers); i++ compare
prevStepCachedLayers[i] with req.prevLayerIDs[i], setting the flag to false
and breaking at the first difference. The bound is i <= len (not i < len), so
when every compared element is equal the loop reads index len, one past the
end; none models that out-of-range panic. The fuel argument counts the
remaining iterations admitted by the loop guard (len + 1 from i = 0), so the
some true exit corresponds to the guard i <= len failing. -/
def compareFrom (prevLayers reqLayers : List DiffID) : Nat → Nat → Option Bool
  | 0, _ => some true
  | fuel + 1, i =>
    match prevLayers.get? i, reqLayers.get? i with
    | some a, some b =>
      if a != b then some false else compareFrom prevLayers reqLayers fuel (i + 1)
    | _, _ => none

/-- The matchesLayerIDs computation of cacheSearchCoroutine: lengths are
compared first; on equal lengths the element loop of compareFrom runs from
i = 0. none models the panic inside that loop. -/
def matchesLayerIDsCalc (prevLayers reqLayers : List DiffID) : Option Bool :=
  if prevLayers.length == reqLayers.length then
    compareFrom prevLayers reqLayers (prevLayers.length + 1) 0
  else some false

/-- The main loop of cacheSearchCoroutine: one iteration per derived history
step, each consuming one request (stopping when the request channel is closed,
that is, when the request list is exhausted). Before reading the request,
prevStepCachedLayers is re-sliced to DiffIDs[0:len(prevStepCachedLayers)]
whenever the step has a non-empty source layer (note: the slice length never
grows, exactly as in the source). The answer is a match response when the
command matches and the layer comparison returned true, otherwise a miss
response; the loop then continues with the next step in both cases (the
source, despite its comment, neither closes the channels nor breaks on a
miss). none models a panic anywhere in the run. -/
def cacheSearchLoop (ds : List DiffID) (cacheFromImageName : String) :
    List historyWithSourceT → List DiffID → List nextCachedLayerRequest →
    Option (List nextCachedLayerResponse)
  | [], _, _ => some []
  | h :: restSteps, prevStepCachedLayers, reqs =>
    let prevStepCachedLayers2 :=
      if h.sourceLayerID != DigestSha256EmptyTar then
        ds.take prevStepCachedLayers.length
      else prevStepCachedLayers
    match reqs with
    | [] => some []
    | req :: restReqs =>
      match matchesLayerIDsCalc prevStepCachedLayers2 req.prevLayerIDs with
      | none => none
      | some matchesLayerIDs =>
        let resp : nextCachedLayerResponse :=
          if req.nextCmd == h.cmd && matchesLayerIDs then
            ⟨h.resultingLayerID, h.createdAt, cacheFromImageName⟩
          else
            ⟨"", 0, ""⟩
        match cacheSearchLoop ds cacheFromImageName restSteps prevStepCachedLayers2 restReqs with
        | none => none
        | some restResps => some (resp :: restResps)

/-- cacheSearchCoroutine of the source, with the channel pair replaced by the
list of requests received and the list of responses sent: derive the history
of the cache-from image, then run the matching loop with an initially empty
prevStepCachedLayers. none models a panic of the goroutine. -/
def cacheSearchCoroutine (cacheFromImage : Image) (cacheFromImageName : String)
    (reqs : List nextCachedLayerRequest) : Option (List nextCachedLayerResponse) :=
  match makeHistoryWithSource cacheFromImage with
  | none => none
  | some historyWithSource =>
    cacheSearchLoop cacheFromImage.DiffIDs cacheFromImageName historyWithSource [] reqs

/-- The image store collaborator: images is the Map() snapshot in one
admissible iteration order (Go map iteration order is unspecified), and
children is the Children(id) index. -/
structure ImageStore where
  images : List Image
  children : String → List String

/-- imageStore.Get(id): look the image up in the store snapshot by ID. -/
def ImageStore.get (store : ImageStore) (id : String) : Option Image :=
  store.images.find? (fun img => img.ID == id)

/-- The daemon with the two collaborators this code reads: the image store
and the reference store (a name-to-ID table). -/
structure Daemon where
  imageStore : ImageStore
  referenceStore : List (String × String)

/-- daemon.GetImage(refOrID): an ID present in the store is returned
directly; otherwise the reference store maps the name to an ID which is then
fetched. (ParseIDOrReference and the tag-search fallbacks of GetImageID are
external name-resolution collaborators, collapsed into these two lookups.)
none models the ErrImageDoesNotExist error return. -/
def GetImage (daemon : Daemon) (refOrID : String) : Option Image :=
  match daemon.imageStore.get refOrID with
  | some img => some img
  | none =>
    match daemon.referenceStore.lookup refOrID with
    | some id => daemon.imageStore.get id
    | none => none

/-- The update of the running best match inside getMatch of GetCachedImage:
if match == nil || match.Created.Before(img.Created) then match = img. -/
def updateIfLater (m : Option Image) (img : Image) : Option Image :=
  match m with
  | none => some img
  | some cur => if cur.Created < img.Created then some img else some cur

/-- The getMatch closure of GetCachedImage: walk the sibling IDs, fetch each
from the store (a missing sibling aborts the walk with an error), and keep
the config-equal candidate with the greatest Created, earlier siblings
winning ties (the update condition is a strict Before). -/
def getMatchGo (store : ImageStore) (cmp : Config → Config → Bool) (config : Config) :
    List String → Option Image → Except String (Option Image)
  | [], m => .ok m
  | id :: rest, m =>
    match store.get id with
    | none => .error ("unable to find image " ++ id)
    | some img =>
      getMatchGo store cmp config rest
        (if cmp img.ContainerConfig config then updateIfLater m img else m)

/-- The sibling enumeration of GetCachedImage: for the scratch parent
(imgID empty) every image of the Map() snapshot whose Parent is also empty,
in snapshot iteration order; otherwise the Children(imgID) index. -/
def siblingIDs (daemon : Daemon) (imgID : String) : List String :=
  if imgID == "" then
    (daemon.imageStore.images.filter (fun img => img.Parent == imgID)).map
      (fun img => img.ID)
  else
    daemon.imageStore.children imgID

/-- daemon.GetCachedImage(imgID, config): run getMatch over the siblings of
imgID, with runconfig.Compare supplied as the comparator argument cmp.
A nil match with a nil error is .ok none. -/
def GetCachedImage (daemon : Daemon) (cmp : Config → Config → Bool)
    (imgID : String) (config : Config) : Except String (Option Image) :=
  getMatchGo daemon.imageStore cmp config (siblingIDs daemon imgID) none

/-- The struct daemonImageCacheForBuild. The two map fields are created by a
struct literal that does not initialize them, so they start as nil Go maps:
none models a nil map (readable, but any write panics). The history map is
declared in the source with scalar value type historyWithSourceT yet is
assigned the slice makeHistoryWithSource returns; the model uses the
assigned slice type. -/
structure daemonImageCacheForBuild where
  daemon : Daemon
  cacheFromImages : Option (List (String × Image))
  cacheFromImageHistories : Option (List (String × List historyWithSourceT))

/-- Assignment m[k] = v on a Go map modelled as an association list:
assignment to a nil map (none) panics, modelled as none. -/
def mapAssign {α : Type} (m : Option (List (String × α))) (k : String) (v : α) :
    Option (List (String × α)) :=
  match m with
  | none => none
  | some entries =>
    if entries.any (fun e => e.fst == k) then
      some (entries.map (fun e => if e.fst == k then (k, v) else e))
    else
      some (entries ++ [(k, v)])

/-- The loop of MakeImageCacheForBuild over the cache-from names: a name that
fails to resolve is skipped; a resolved image is recorded in both maps (the
image itself, then its derived history). none models a panic: the first
write already hits a nil map, and makeHistoryWithSource can itself panic. -/
def makeImageCacheGo (daemon : Daemon) :
    List String → daemonImageCacheForBuild → Option daemonImageCacheForBuild
  | [], cache => some cache
  | cacheFromImageName :: rest, cache =>
    match GetImage daemon cacheFromImageName with
    | none => makeImageCacheGo daemon rest cache
    | some cacheFromImage =>
      match mapAssign cache.cacheFromImages cacheFromImageName cacheFromImage with
      | none => none
      | some m1 =>
        match makeHistoryWithSource cacheFromImage with
        | none => none
        | some hist =>
          match mapAssign cache.cacheFromImageHistories cacheFromImageName hist with
          | none => none
          | some m2 =>
            makeImageCacheGo daemon rest
              { cache with cacheFromImages := some m1, cacheFromImageHistories := some m2 }

/-- daemon.MakeImageCacheForBuild(cacheFrom): build the cache value whose map
fields the struct literal leaves nil, then record every resolvable
cache-from image. none models the run panicking. -/
def MakeImageCacheForBuild (daemon : Daemon) (cacheFrom : List String) :
    Option daemonImageCacheForBuild :=
  makeImageCacheGo daemon cacheFrom
    { daemon := daemon, cacheFromImages := none, cacheFromImageHistories := none }

/-- The possible outcomes of GetCachedImageOnBuild as written in the source:
ret models return (id, nil); err models return ("", err); panicked models a
runtime fault inside the call; unfinished models control reaching the end of
the function body, which has no return statement there (the cache-from
matching part of the function is not finished: its loop over
cache.cacheFromImages only computes length comparisons and falls through). -/
inductive buildCacheResult where
  | ret (imageID : String)
  | err (msg : String)
  | panicked
  | unfinished
deriving Repr, DecidableEq

/-- cache.GetCachedImageOnBuild(imgID, cfg) as written in the source: try
GetCachedImage first and return its hit immediately; otherwise fetch the
parent image, derive its history, and then fall into the unfinished
cache-from block (whose loop has no observable effect and which ends without
a return statement). The trackers and the plugin are never consulted. -/
def GetCachedImageOnBuild (cache : daemonImageCacheForBuild)
    (cmp : Config → Config → Bool) (imgID : String) (cfg : Config) : buildCacheResult :=
  match GetCachedImage cache.daemon cmp imgID cfg with
  | .error e => .err e
  | .ok (some cachedImage) => .ret cachedImage.ID
  | .ok none =>
    match GetImage cache.daemon imgID with
    | none => .err "no such id"
    | some parentImage =>
      match makeHistoryWithSource parentImage with
      | none => .panicked
      | some _parentImageHistory => .unfinished

/-- Modelled from the spec: the CacheAnswer data contract (spec section 3),
Found plus an ImageID that is only meaningful when Found holds. The source
under src has no such struct because the resolver surface is unfinished. -/
structure CacheAnswer where
  Found : Bool
  ImageID : String
deriving Repr, DecidableEq

/-- Modelled from the spec: the outcome of one plugin WantsCachedImage call
(spec section 6): either a transport or application error, or a
WantsCachedImageResponse carrying the ImageId and Err fields. The plugin
invocation is absent from src; only the ImageCachePlugin interface and the
request and response shapes are declared in image_cache_plugin.go. -/
inductive PluginOutcome where
  | err (msg : String)
  | resp (imageId : String) (errMsg : String)
deriving Repr, DecidableEq

/-- Modelled from the spec: a plugin outcome counts as a verified hit exactly
when there was no error, the Err field is empty, the returned ImageId is
non-empty, and that ID exists in the local image store (spec section 4.4
step 4). -/
def verifiedHit (store : ImageStore) (outcome : PluginOutcome) : Bool :=
  match outcome with
  | .err _ => false
  | .resp imageId errMsg =>
    errMsg == "" && imageId != "" && (store.get imageId).isSome

/-- Modelled from the spec: the plugin fallback step of the resolver (spec
sections 4.4 step 4 and 7): a plugin error, a non-empty Err field, an empty
ImageId, or an ImageId absent from the local store are all downgraded to an
ordinary miss; only a store-verified non-empty ImageId is accepted. -/
def pluginFallback (store : ImageStore) (outcome : PluginOutcome) : CacheAnswer :=
  match outcome with
  | .err _ => ⟨false, ""⟩
  | .resp imageId errMsg =>
    if errMsg != "" then ⟨false, ""⟩
    else if imageId == "" then ⟨false, ""⟩
    else
      match store.get imageId with
      | some _ => ⟨true, imageId⟩
      | none => ⟨false, ""⟩

/-- Modelled from the spec: the resolver pipeline of section 4.4 with the
tracker arbitration of steps 2 and 3 summarized by its result trackerHit
(the answer of the first matching tracker in cache-from order, none when
every tracker missed): a direct-matcher hit is returned first, then a
tracker hit, then the plugin fallback when a plugin is registered, and
otherwise a miss; no branch of the fallback chain produces an error. -/
def resolveQuerySpec (store : ImageStore) (direct : Option Image)
    (trackerHit : Option String) (plugin : Option PluginOutcome) :
    Except String CacheAnswer :=
  match direct with
  | some img => .ok ⟨true, img.ID⟩
  | none =>
    match trackerHit with
    | some id => .ok ⟨true, id⟩
    | none =>
      match plugin with
      | some outcome => .ok (pluginFallback store outcome)
      | none => .ok ⟨false, ""⟩

/-- Resolve a list of sibling IDs through the store; none when some ID is
absent. Used to phrase the hypotheses of the direct-matcher theorems. -/
def resolveIDs (store : ImageStore) : List String → Option (List Image)
  | [] => some []
  | id :: rest =>
    match store.get id, resolveIDs store rest with
    | some img, some tail => some (img :: tail)
    | _, _ => none

/-- Specification predicate: c was created no earlier than every image of l. -/
def isLatestIn (l : List Image) (c : Image) : Bool :=
  l.all (fun d => decide (d.Created ≤ c.Created))

/-- Specification function: the first element of l that is at least as
recent as every element of l, none when l is empty. -/
def firstLatest (l : List Image) : Option Image :=
  l.find? (isLatestIn l)

/-- The accumulator recursion of getMatch restricted to an already resolved
and config-filtered candidate list; getMatchGo is proved equal to it. -/
def argmaxFirst : List Image → Option Image → Option Image
  | [], m => m
  | c :: rest, m => argmaxFirst rest (updateIfLater m c)

/-- The comparator instance used by the concrete fixtures below: plain
equality of the opaque configuration strings. -/
def eqCmp : Config → Config → Bool := fun a b => a == b

/-- Fixture: the cache-from image of the replay scenario, one instruction
that produced one layer. -/
def imgI1 : Image := ⟨"i1", "p0", "cfgFinal", 9, [⟨"A", 7, false⟩], ["l1"]⟩

/-- Fixture: a cache-from image with two layer-producing instructions. -/
def imgI2 : Image :=
  ⟨"i2", "p0", "cfgFinal", 9, [⟨"A", 5, false⟩, ⟨"B", 6, false⟩], ["l1", "l2"]⟩

/-- Fixture: the scratch-based parent image of the replay scenario. -/
def imgP0 : Image := ⟨"p0", "", "cfgP", 1, [], []⟩

/-- Fixture: daemon holding the replay parent and the cache-from image; the
child index of the store is empty, so the direct matcher finds nothing. -/
def daemonC1 : Daemon :=
  ⟨⟨[imgP0, imgI1], fun _ => []⟩, []⟩

/-- Fixture: a cache value holding the cache-from image of the replay
scenario together with its derived history, as the finished design would
have recorded them. -/
def cacheC1 : daemonImageCacheForBuild :=
  ⟨daemonC1, some [("i1", imgI1)],
   some [("i1", [⟨DigestSha256EmptyTar, "A", "l1", 7⟩])]⟩

/-- Fixture: an image whose History and LayerDiffIDs violate the count
invariant: one layer-producing entry but an empty DiffIDs list. -/
def corruptImage : Image := ⟨"bad", "", "cfgBad", 0, [⟨"A", 3, false⟩], []⟩

/-- Fixture: the image of the HistoryDeriver example of the spec: History
[A producing no layer, B producing one layer] and LayerDiffIDs [L1]. -/
def exampleImage : Image :=
  ⟨"ex", "", "cfgEx", 0, [⟨"A", 11, true⟩, ⟨"B", 12, false⟩], ["L1"]⟩

/-- Fixture: the step sequence the claim expects for exampleImage. -/
def exampleSteps : List historyWithSourceT :=
  [⟨DigestSha256EmptyTar, "A", DigestSha256EmptyTar, 11⟩,
   ⟨DigestSha256EmptyTar, "B", "L1", 12⟩]

/-- Fixture: daemon for the MakeImageCacheForBuild scenario, holding one
image that the cache-from name resolves to. -/
def daemonC10 : Daemon :=
  ⟨⟨[⟨"img1", "", "cfg1", 2, [], []⟩], fun _ => []⟩, []⟩

/-- Fixture: a parent image with two config-equal children of distinct
creation times, for the direct-matcher recency scenario. -/
def imgT1 : Image := ⟨"t1", "p", "cfgT12", 1, [], []⟩

/-- Fixture: the more recent of the two config-equal children. -/
def imgT2 : Image := ⟨"t2", "p", "cfgT12", 2, [], []⟩

/-- Fixture: daemon whose child index lists the two config-equal children of
parent p in order [t1, t2]. -/
def daemonT12 : Daemon :=
  ⟨⟨[⟨"p", "", "cfgP", 0, [], []⟩, imgT1, imgT2],
    fun id => if id == "p" then ["t1", "t2"] else []⟩, []⟩

/-- Fixture: a scratch-parent child for the tie scenario, created at time 5. -/
def tieImgA : Image := ⟨"a", "", "cfgTie", 5, [], []⟩

/-- Fixture: the other scratch-parent child of the tie scenario, also created
at time 5 and config-equal to tieImgA. -/
def tieImgB : Image := ⟨"b", "", "cfgTie", 5, [], []⟩

/-- Fixture: store snapshot enumerating the tied children as [a, b]; one
admissible Go map iteration order of the one underlying store. -/
def daemonTie1 : Daemon := ⟨⟨[tieImgA, tieImgB], fun _ => []⟩, []⟩

/-- Fixture: the same store snapshot enumerated as [b, a]; another admissible
iteration order of the same underlying map. -/
def daemonTie2 : Daemon := ⟨⟨[tieImgB, tieImgA], fun _ => []⟩, []⟩

/-- Fixture: daemon for the direct-hit scenario: parent p with a single
config-equal child c. -/
def daemonC4 : Daemon :=
  ⟨⟨[⟨"p", "", "cfgP", 0, [], []⟩, ⟨"c", "p", "cfgC", 5, [], []⟩],
    fun id => if id == "p" then ["c"] else []⟩, []⟩

/-- Fixture: a cache over daemonC4 that also holds a cache-from tracker
entry, to exercise the priority of the direct hit over it. -/
def cacheC4 : daemonImageCacheForBuild :=
  ⟨daemonC4, some [("i1", imgI1)],
   some [("i1", [⟨DigestSha256EmptyTar, "A", "l1", 7⟩])]⟩

/-- Helper for the history deriver: every successful run of the loop of
makeHistoryWithSource yields one step per entry in order, copies command and
time, starts its first step at the layer the incoming index denotes, and
chains each source layer to the previous resulting layer. -/
theorem makeHistoryWithSourceGo_spec (ds : List DiffID) :
    ∀ (entries : List HistoryEntry) (li : Int) (steps : List historyWithSourceT),
      makeHistoryWithSourceGo ds entries li = some steps →
      steps.length = entries.length ∧
      (∀ j a e, steps.get? j = some a → entries.get? j = some e →
        a.cmd = e.CreatedBy ∧ a.createdAt = e.Created) ∧
      (∀ a, steps.get? 0 = some a → layerAt ds li = some a.sourceLayerID) ∧
      (∀ j a b, steps.get? j = some a → steps.get? (j + 1) = some b →
        b.sourceLayerID = a.resultingLayerID) := by
  intro entries
  induction entries with
  | nil =>
    intro li steps h
    simp only [makeHistoryWithSourceGo, Option.some.injEq] at h
    subst h
    refine ⟨rfl, ?_, ?_, ?_⟩
    · intro j a e ha
      simp at ha
    · intro a ha
      simp at ha
    · intro j a b ha
      simp at ha
  | cons h rest ih =>
    intro li steps hmk
    simp only [makeHistoryWithSourceGo] at hmk
    cases hsrc : layerAt ds li with
    | none => rw [hsrc] at hmk; simp at hmk
    | some src =>
      rw [hsrc] at hmk
      cases hres : layerAt ds (if !h.EmptyLayer then li + 1 else li) with
      | none => rw [hres] at hmk; simp at hmk
      | some res =>
        rw [hres] at hmk
        cases hrec : makeHistoryWithSourceGo ds rest (if !h.EmptyLayer then li + 1 else li) with
        | none => rw [hrec] at hmk; simp at hmk
        | some tail =>
          rw [hrec] at hmk
          simp only [Option.some.injEq] at hmk
          subst hmk
          obtain ⟨ihlen, ihcmd, ihhead, ihchain⟩ :=
            ih (if !h.EmptyLayer then li + 1 else li) tail hrec
          refine ⟨by simp [ihlen], ?_, ?_, ?_⟩
          · intro j a e ha he
            cases j with
            | zero =>
              simp only [List.get?_cons_zero, Option.some.injEq] at ha he
              subst ha; subst he
              exact ⟨rfl, rfl⟩
            | succ j =>
              simp only [List.get?_cons_succ] at ha he
              exact ihcmd j a e ha he
          · intro a ha
            simp only [List.get?_cons_zero, Option.some.injEq] at ha
            subst ha
            rfl
          · intro j a b ha hb
            cases j with
            | zero =>
              simp only [List.get?_cons_zero, Option.some.injEq,
                List.get?_cons_succ] at ha hb
              subst ha
              have := ihhead b hb
              rw [hres] at this
              simp only [Option.some.injEq] at this
              exact this.symm
            | succ j =>
              simp only [List.get?_cons_succ] at ha hb
              exact ihchain j a b ha hb

/-- Helper: getMatchGo over sibling IDs that all resolve equals the
accumulator recursion argmaxFirst over the resolved, config-filtered images. -/
theorem getMatchGo_resolved (store : ImageStore) (cmp : Config → Config → Bool)
    (config : Config) :
    ∀ (ids : List String) (sibs : List Image) (m : Option Image),
      resolveIDs store ids = some sibs →
      getMatchGo store cmp config ids m =
        .ok (argmaxFirst (sibs.filter fun img => cmp img.ContainerConfig config) m) := by
  intro ids
  induction ids with
  | nil =>
    intro sibs m h
    simp only [resolveIDs, Option.some.injEq] at h
    subst h
    rfl
  | cons id rest ih =>
    intro sibs m h
    simp only [resolveIDs] at h
    cases hg : store.get id with
    | none => rw [hg] at h; simp at h
    | some img =>
      rw [hg] at h
      cases hr : resolveIDs store rest with
      | none => rw [hr] at h; simp at h
      | some tail =>
        rw [hr] at h
        simp only [Option.some.injEq] at h
        subst h
        simp only [getMatchGo, hg, List.filter_cons]
        cases hc : cmp img.ContainerConfig config with
        | true =>
          simp only [if_pos rfl, if_true]
          rw [ih tail (updateIfLater m img) hr]
          rfl
        | false =>
          simp only [Bool.false_eq_true, if_neg, if_false]
          exact ih tail m hr

/-- Helper: merging the first two elements of the latest-comparison list:
the predicate of isLatestIn does not change when the two leading images are
replaced by the later of the two (ties keeping the first). -/
theorem isLatestIn_merge (m c : Image) (rest : List Image) (x : Image) :
    isLatestIn (m :: c :: rest) x =
      isLatestIn ((if m.Created < c.Created then c else m) :: rest) x := by
  by_cases hlt : m.Created < c.Created
  · rw [if_pos hlt]
    simp only [isLatestIn, List.all_cons]
    by_cases hcx : c.Created ≤ x.Created
    · have hmx : m.Created ≤ x.Created := Nat.le_of_lt (Nat.lt_of_lt_of_le hlt hcx)
      simp [hcx, hmx]
    · simp [hcx]
  · rw [if_neg hlt]
    simp only [isLatestIn, List.all_cons]
    by_cases hmx : m.Created ≤ x.Created
    · have hcx : c.Created ≤ x.Created := Nat.le_trans (Nat.le_of_not_lt hlt) hmx
      simp [hcx, hmx]
    · simp [hmx]

/-- Helper: firstLatest of a list of two or more images equals firstLatest of
the list with the two leading images merged into the later of the two. -/
theorem firstLatest_cons_cons (m c : Image) (rest : List Image) :
    firstLatest (m :: c :: rest) =
      firstLatest ((if m.Created < c.Created then c else m) :: rest) := by
  have hpred : isLatestIn (m :: c :: rest) =
      isLatestIn ((if m.Created < c.Created then c else m) :: rest) :=
    funext (isLatestIn_merge m c rest)
  unfold firstLatest
  rw [hpred]
  by_cases hlt : m.Created < c.Created
  · rw [if_pos hlt]
    have hm : ¬ isLatestIn (c :: rest) m = true := by
      simp [isLatestIn, List.all_cons, Nat.not_le.mpr hlt]
    rw [List.find?_cons_of_neg _ hm]
  · rw [if_neg hlt]
    have hcm : c.Created ≤ m.Created := Nat.le_of_not_lt hlt
    by_cases hPm : isLatestIn (m :: rest) m = true
    · rw [List.find?_cons_of_pos _ hPm, List.find?_cons_of_pos _ hPm]
    · have hPc : ¬ isLatestIn (m :: rest) c = true := by
        by_cases hmc : m.Created ≤ c.Created
        · have heq : c.Created = m.Created := Nat.le_antisymm hcm hmc
          have hpc_eq : isLatestIn (m :: rest) c = isLatestIn (m :: rest) m := by
            simp only [isLatestIn, List.all_cons, heq]
          rw [hpc_eq]
          exact hPm
        · simp [isLatestIn, List.all_cons, hmc]
      rw [List.find?_cons_of_neg _ hPm, List.find?_cons_of_neg _ hPc,
        List.find?_cons_of_neg _ hPm]

/-- Helper: the accumulator recursion started at some m computes the first
latest image of the list with m at its head. -/
theorem argmaxFirst_some (l : List Image) :
    ∀ m : Image, argmaxFirst l (some m) = firstLatest (m :: l) := by
  induction l with
  | nil =>
    intro m
    have hm : isLatestIn [m] m = true := by simp [isLatestIn]
    show some m = firstLatest [m]
    unfold firstLatest
    rw [List.find?_cons_of_pos _ hm]
  | cons c rest ih =>
    intro m
    show argmaxFirst rest (updateIfLater (some m) c) = firstLatest (m :: c :: rest)
    rw [firstLatest_cons_cons]
    by_cases hlt : m.Created < c.Created
    · rw [if_pos hlt]
      have hu : updateIfLater (some m) c = some c := by simp [updateIfLater, hlt]
      rw [hu, ih c]
    · rw [if_neg hlt]
      have hu : updateIfLater (some m) c = some m := by simp [updateIfLater, hlt]
      rw [hu, ih m]

/-- Helper: the accumulator recursion started empty computes firstLatest. -/
theorem argmaxFirst_none (l : List Image) : argmaxFirst l none = firstLatest l := by
  cases l with
  | nil => rfl
  | cons c rest =>
    show argmaxFirst rest (updateIfLater none c) = firstLatest (c :: rest)
    have hu : updateIfLater none c = some c := rfl
    rw [hu]
    exact argmaxFirst_some rest c

/-- C1: the claim states that replaying a cache-from image through
GetCachedImageOnBuild, with that image as the only cache-from candidate,
returns a match at every step, ending at the image's final layer. The code
contradicts this at the very first replay step: with the direct matcher
missing, GetCachedImageOnBuild derives the parent history and then falls
into the unfinished cache-from block, which ends without returning a result,
so no tracker match is ever surfaced (and the tracker coroutine itself would
panic on the matching comparison, see the C3 theorem). This theorem
evaluates the code at the failing input: replay step one of imgI1 with the
tracker-holding cache cacheC1. -/
theorem c1_replay_has_no_match :
    GetCachedImageOnBuild cacheC1 eqCmp "p0" "cfgStep1" = .unfinished := by decide

/-- C2: the claim states that one mismatched Ask permanently closes the
tracker and every later Ask returns matched=false. The code never closes:
after the mismatched first request the coroutine advances to the next
history step and keeps serving; a second Ask whose command and preceding
layers would match that next step then panics in the layer comparison
(loop bound i <= len over two empty lists) instead of returning
matched=false — first conjunct. The second conjunct shows the loop indeed
continues consuming requests after a mismatch rather than stopping. -/
theorem c2_mismatch_does_not_close :
    cacheSearchCoroutine imgI2 "i2" [⟨"X", ["z"]⟩, ⟨"B", []⟩] = none ∧
    cacheSearchCoroutine imgI2 "i2" [⟨"X", ["z"]⟩, ⟨"B", ["q"]⟩] =
      some [⟨"", 0, ""⟩, ⟨"", 0, ""⟩] := by decide

/-- C3: the claim states that an open tracker answers matched=true exactly
when the command equals the current step command and the preceding layers
equal the emitted chain, advancing and extending the chain on a match. The
code can never produce a match: on the very first Ask of a fresh tracker
whose command matches the first step and whose preceding layers are the
(empty) emitted chain, the comparison loop runs while i <= len and reads
index 0 of both empty lists, so the coroutine panics instead of answering
matched=true with the step's resulting layer. -/
theorem c3_matching_ask_panics :
    cacheSearchCoroutine imgI1 "i1" [⟨"A", []⟩] = none := by decide

/-- C4: on every query for which the direct parent/config matcher finds an
image, GetCachedImageOnBuild returns that image's ID immediately; the result
holds for every cache value (hence independently of any cache-from tracker
state), and the code contains no plugin call at all. -/
theorem c4_direct_hit_first (cache : daemonImageCacheForBuild)
    (cmp : Config → Config → Bool) (imgID : String) (cfg : Config) (img : Image)
    (h : GetCachedImage cache.daemon cmp imgID cfg = .ok (some img)) :
    GetCachedImageOnBuild cache cmp imgID cfg = .ret img.ID := by
  unfold GetCachedImageOnBuild
  rw [h]

/-- Witness for C4: in the fixture store, parent p has the config-equal
child c, and the resolver returns c even though the cache holds a
cache-from tracker entry. -/
theorem c4_direct_hit_first_witness :
    GetCachedImageOnBuild cacheC4 eqCmp "p" "cfgC" = .ret "c" :=
  c4_direct_hit_first cacheC4 eqCmp "p" "cfgC" ⟨"c", "p", "cfgC", 5, [], []⟩ (by rfl)

/-- C5: the history deriver maps the example image (History A without layer,
B with layer, DiffIDs [L1]) to exactly the two steps of the claim, and in
general a successful derivation yields one step per history entry in order,
copying command and creation time, with the first step's source layer the
empty sentinel and every later step's source layer equal to the previous
step's resulting layer. -/
theorem c5_history_deriver :
    makeHistoryWithSource exampleImage = some exampleSteps ∧
    ∀ (img : Image) (steps : List historyWithSourceT),
      makeHistoryWithSource img = some steps →
      steps.length = img.History.length ∧
      (∀ j a e, steps.get? j = some a → img.History.get? j = some e →
        a.cmd = e.CreatedBy ∧ a.createdAt = e.Created) ∧
      (∀ a, steps.get? 0 = some a → a.sourceLayerID = DigestSha256EmptyTar) ∧
      (∀ j a b, steps.get? j = some a → steps.get? (j + 1) = some b →
        b.sourceLayerID = a.resultingLayerID) := by
  constructor
  · decide
  · intro img steps h
    obtain ⟨h1, h2, h3, h4⟩ :=
      makeHistoryWithSourceGo_spec img.DiffIDs img.History (-1) steps h
    refine ⟨h1, h2, ?_, h4⟩
    intro a ha
    have hsrc := h3 a ha
    have hempty : layerAt img.DiffIDs (-1) = some DigestSha256EmptyTar := rfl
    rw [hempty] at hsrc
    exact (Option.some.inj hsrc).symm

/-- Witness for C5: the general part applied to the example image and its
concrete derived steps. -/
theorem c5_history_deriver_witness :
    exampleSteps.length = exampleImage.History.length :=
  (c5_history_deriver.2 exampleImage exampleSteps (by decide)).1

/-- C6: the claim states that an image violating the History/LayerDiffIDs
count invariant makes the deriver fail with ErrCorruptHistory. The code has
no error return at all: it indexes RootFS.DiffIDs out of range and panics.
This theorem evaluates the code at the failing input, an image with one
layer-producing history entry and an empty DiffIDs list: the derivation
faults (none) instead of returning an ErrCorruptHistory value. -/
theorem c6_corrupt_history_panics :
    makeHistoryWithSource corruptImage = none := by decide

/-- C7 (amended): under the hypothesis that every enumerated sibling ID
resolves in the store, GetCachedImage returns exactly the first-enumerated
config-equal candidate whose creation time is maximal among the config-equal
candidates (none, with no error, when there is no config-equal candidate).
Ties are therefore broken by enumeration position — for a scratch parent the
iteration order of the Go map snapshot — not by a fixed order on IDs. -/
theorem c7_direct_matcher_first_latest (daemon : Daemon)
    (cmp : Config → Config → Bool) (imgID : String) (config : Config)
    (sibs : List Image)
    (hres : resolveIDs daemon.imageStore (siblingIDs daemon imgID) = some sibs) :
    GetCachedImage daemon cmp imgID config =
      .ok (firstLatest (sibs.filter fun img => cmp img.ContainerConfig config)) := by
  unfold GetCachedImage
  rw [getMatchGo_resolved daemon.imageStore cmp config (siblingIDs daemon imgID)
      sibs none hres,
    argmaxFirst_none]

/-- Witness for C7: in the fixture store, parent p has two config-equal
children created at times 1 < 2, and GetCachedImage returns the time-2
child. -/
theorem c7_direct_matcher_first_latest_witness :
    GetCachedImage daemonT12 eqCmp "p" "cfgT12" = .ok (some imgT2) :=
  (c7_direct_matcher_first_latest daemonT12 eqCmp "p" "cfgT12" [imgT1, imgT2]
    (by rfl)).trans (by rfl)

/-- Counterexample for C7 as stated: two stores holding the same two
config-equal, same-time scratch children — only enumerated in the two
possible orders, both admissible iteration orders of one and the same Go
map — make GetCachedImage return different children. The choice among tied
candidates therefore depends on map iteration order, which Go leaves
unspecified and varies between runs, refuting the claim that ties are
broken by a fixed deterministic order such as lexicographic ID (the second
run returns b although a is lexicographically smaller). -/
theorem c7_tie_depends_on_enumeration :
    daemonTie1.imageStore.images = [tieImgA, tieImgB] ∧
    daemonTie2.imageStore.images = [tieImgB, tieImgA] ∧
    tieImgA.Created = tieImgB.Created ∧
    tieImgA.ContainerConfig = tieImgB.ContainerConfig ∧
    GetCachedImage daemonTie1 eqCmp "" "cfgTie" = .ok (some tieImgA) ∧
    GetCachedImage daemonTie2 eqCmp "" "cfgTie" = .ok (some tieImgB) ∧
    tieImgA.ID ≠ tieImgB.ID :=
  ⟨rfl, rfl, rfl, rfl, rfl, rfl, by decide⟩

/-- C8 (spec-modelled): when the direct matcher and every tracker miss, the
resolver hands the query to the registered plugin, and any plugin outcome
that is not a store-verified hit — a plugin error, a non-empty Err field, an
empty returned ImageId, or an ImageId absent from the local store — is
returned to the caller as an ordinary miss (Found=false) with no error. -/
theorem c8_plugin_nonhit_is_miss (store : ImageStore) (outcome : PluginOutcome)
    (h : verifiedHit store outcome = false) :
    resolveQuerySpec store none none (some outcome) =
      .ok (pluginFallback store outcome) ∧
    resolveQuerySpec store none none (some outcome) = .ok ⟨false, ""⟩ := by
  refine ⟨rfl, ?_⟩
  cases outcome with
  | err msg => rfl
  | resp imageId errMsg =>
    simp only [verifiedHit, Bool.and_eq_false_iff] at h
    simp only [resolveQuerySpec, pluginFallback]
    by_cases he : errMsg == ""
    · have hne : (errMsg != "") = false := by simp [bne, he]
      rw [hne]
      simp only [Bool.false_eq_true, if_false]
      by_cases hid : imageId == ""
      · rw [if_pos hid]
      · rw [if_neg hid]
        have hsome : (store.get imageId).isSome = false := by
          rcases h with h | h
          · rcases h with h | h
            · rw [he] at h; simp at h
            · have : (imageId != "") = true := by simp [bne, hid]
              rw [this] at h; simp at h
          · exact h
        cases hg : store.get imageId with
        | none => rfl
        | some img => rw [hg] at hsome; simp at hsome
    · have hne : (errMsg != "") = true := by simp [bne, he]
      rw [hne]
      rfl

/-- Witness for C8: a plugin response naming an image absent from the
fixture store is answered as a miss with no error. -/
theorem c8_plugin_nonhit_is_miss_witness :
    resolveQuerySpec daemonC10.imageStore none none (some (.resp "ghost" "")) =
      .ok ⟨false, ""⟩ :=
  (c8_plugin_nonhit_is_miss daemonC10.imageStore (.resp "ghost" "") (by decide)).2

/-- C9: the claim states that the tracker's preceding-layer comparison, on
lists of equal length n, accesses only indices 0 through n-1. The loop of
the code runs while i <= len, so whenever all compared elements are equal it
also reads index n, one past the end of both slices: already for n = 0 (two
empty lists) the comparison faults, and likewise for n = 1 with equal
elements. -/
theorem c9_layer_compare_reads_past_end :
    matchesLayerIDsCalc [] [] = none ∧
    matchesLayerIDsCalc ["a"] ["a"] = none := by decide

/-- C10: the claim states that MakeImageCacheForBuild returns normally with
one map entry per resolvable cache-from name and that recording a resolved
image never faults. The struct literal in the code leaves both map fields
nil, so the very first write for a successfully resolved name is an
assignment to a nil map, which panics: with a single resolvable name the
constructor faults instead of returning a cache. -/
theorem c10_record_image_panics :
    MakeImageCacheForBuild daemonC10 ["img1"] = none := by rfl

end DockerBuildCache
